import Mathlib

/-!
Verification of the AI gateway access proxy worker (`src/index.ts`).

The worker is a Hono application with a single wildcard POST handler.
The handler
  1. reads the `cf-access-token` request header and answers 401 when it is
     absent (or empty, since the JavaScript test is `if (!token)`),
  2. splits the header value on `.`, base64-decodes the second segment with
     `atob`, parses the result with `JSON.parse` and reads the `email`
     property, answering 401 when any of these steps throws or when the email
     is falsy,
  3. otherwise forwards the request to the configured gateway URL with the
     inbound method, the inbound headers with `Authorization` overwritten and
     `cf-aig-metadata` set, and the inbound body, returning the upstream
     response unchanged, or 502 when the upstream `fetch` rejects.

The development below embeds these steps as executable Lean functions and
proves the behavioural properties of the handler.
-/

namespace ProxyWorker

/-- Left brace character, kept out of string literals. -/
def lbraceChar : Char := Char.ofNat 123

/-- Right brace character, kept out of string literals. -/
def rbraceChar : Char := Char.ofNat 125

/-- JSON values as produced by the JavaScript `JSON.parse`.  Numbers are kept
in their syntactic form (sign, integer digits, fraction digits, exponent);
the rounding of a literal to a IEEE double is not modelled, which only
matters for extreme exponents no property here depends on. -/
inductive JsValue where
  | jnull
  | jbool (b : Bool)
  | jnum (neg : Bool) (ints : List Nat) (fracs : List Nat) (expNeg : Bool) (exps : List Nat)
  | jstr (s : String)
  | jarr (elems : List JsValue)
  | jobj (fields : List (String × JsValue))

/-- JSON whitespace accepted by `JSON.parse`: space, tab, line feed, carriage
return. -/
def isJsonWs (c : Char) : Bool :=
  c == ' ' || c == Char.ofNat 9 || c == Char.ofNat 10 || c == Char.ofNat 13

/-- Drop leading JSON whitespace. -/
def skipWs (cs : List Char) : List Char := cs.dropWhile isJsonWs

/-- Value of a hexadecimal digit. -/
def hexVal (c : Char) : Option Nat :=
  if 48 ≤ c.toNat && c.toNat ≤ 57 then some (c.toNat - 48)
  else if 97 ≤ c.toNat && c.toNat ≤ 102 then some (c.toNat - 87)
  else if 65 ≤ c.toNat && c.toNat ≤ 70 then some (c.toNat - 55)
  else none

/-- Recognise an escaped low surrogate right after an escaped high surrogate
`u`, combining the pair into one code point. -/
def lowSurrogateAt (u : Nat) : List Char → Option (Nat × List Char)
  | '\\' :: 'u' :: g1 :: g2 :: g3 :: g4 :: r2 =>
    match hexVal g1, hexVal g2, hexVal g3, hexVal g4 with
    | some a2, some b2, some c2, some d2 =>
      let l := ((a2 * 16 + b2) * 16 + c2) * 16 + d2
      if 56320 ≤ l && l ≤ 57343 then
        some (65536 + (u - 55296) * 1024 + (l - 56320), r2)
      else none
    | _, _, _, _ => none
  | _ => none

/-- Fuel-indexed worker for `parseStringBody`; each step consumes at least
one character, so fuel equal to the input length plus one suffices. -/
def parseStringBodyF : Nat → List Char → List Char → Option (String × List Char)
  | 0, _, _ => none
  | Nat.succ fuel, acc, cs =>
    match cs with
    | [] => none
    | '"' :: rest => some (String.mk acc.reverse, rest)
    | '\\' :: rest =>
      match rest with
      | '"' :: r => parseStringBodyF fuel ('"' :: acc) r
      | '\\' :: r => parseStringBodyF fuel ('\\' :: acc) r
      | '/' :: r => parseStringBodyF fuel ('/' :: acc) r
      | 'b' :: r => parseStringBodyF fuel (Char.ofNat 8 :: acc) r
      | 'f' :: r => parseStringBodyF fuel (Char.ofNat 12 :: acc) r
      | 'n' :: r => parseStringBodyF fuel (Char.ofNat 10 :: acc) r
      | 'r' :: r => parseStringBodyF fuel (Char.ofNat 13 :: acc) r
      | 't' :: r => parseStringBodyF fuel (Char.ofNat 9 :: acc) r
      | 'u' :: h1 :: h2 :: h3 :: h4 :: r =>
        match hexVal h1, hexVal h2, hexVal h3, hexVal h4 with
        | some a, some b, some c, some d =>
          let u := ((a * 16 + b) * 16 + c) * 16 + d
          if 55296 ≤ u && u ≤ 56319 then
            match lowSurrogateAt u r with
            | some (cp, r2) => parseStringBodyF fuel (Char.ofNat cp :: acc) r2
            | none => parseStringBodyF fuel (Char.ofNat 65533 :: acc) r
          else if 56320 ≤ u && u ≤ 57343 then
            parseStringBodyF fuel (Char.ofNat 65533 :: acc) r
          else
            parseStringBodyF fuel (Char.ofNat u :: acc) r
        | _, _, _, _ => none
      | _ => none
    | c :: rest =>
      if c.toNat < 32 then none else parseStringBodyF fuel (c :: acc) rest

/-- Body of a JSON string literal, after the opening quote.  Follows the
`JSON.parse` grammar: the escapes `\" \\ \/ \b \f \n \r \t \uXXXX`, any
other character of code at least 32 taken literally, unescaped control
characters rejected.  Escaped surrogate pairs are combined into one code
point; a lone escaped surrogate (which JavaScript would keep as an unpaired
UTF-16 unit) is represented by the replacement character, as Lean characters
are code points. -/
def parseStringBody (acc cs : List Char) : Option (String × List Char) :=
  parseStringBodyF (cs.length + 1) acc cs

/-- Leading decimal digits of the input, as values, with the rest. -/
def digitVals : List Char → List Nat × List Char
  | [] => ([], [])
  | c :: rest =>
    if 48 ≤ c.toNat && c.toNat ≤ 57 then
      let (ds, r) := digitVals rest
      ((c.toNat - 48) :: ds, r)
    else ([], c :: rest)

/-- Exponent part of a JSON number, after the `e` or `E`. -/
def parseExpPart (cs : List Char) : Option (Bool × List Nat × List Char) :=
  let (sgn, cs1) :=
    match cs with
    | '+' :: r => (false, r)
    | '-' :: r => (true, r)
    | _ => (false, cs)
  let (ds, cs2) := digitVals cs1
  if ds.isEmpty then none else some (sgn, ds, cs2)

/-- Attach an optional exponent to a parsed number. -/
def withExpPart (neg : Bool) (ints fracs : List Nat) (cs : List Char) :
    Option (JsValue × List Char) :=
  match cs with
  | 'e' :: r => (parseExpPart r).map fun t => (JsValue.jnum neg ints fracs t.1 t.2.1, t.2.2)
  | 'E' :: r => (parseExpPart r).map fun t => (JsValue.jnum neg ints fracs t.1 t.2.1, t.2.2)
  | _ => some (JsValue.jnum neg ints fracs false [], cs)

/-- JSON number, per the `JSON.parse` grammar: optional minus, integer part
without a leading zero (except `0` itself), optional fraction, optional
exponent. -/
def parseNumber (cs : List Char) : Option (JsValue × List Char) :=
  let (neg, cs1) :=
    match cs with
    | '-' :: r => (true, r)
    | _ => (false, cs)
  let (ints, cs2) := digitVals cs1
  if ints.isEmpty then none
  else if 2 ≤ ints.length && ints.headD 0 == 0 then none
  else
    match cs2 with
    | '.' :: r =>
      let (fracs, cs3) := digitVals r
      if fracs.isEmpty then none else withExpPart neg ints fracs cs3
    | _ => withExpPart neg ints [] cs2

/-- Parsing mode of the recursive-descent `JSON.parse` loop: a value, the
tail of an array after the opening bracket, or the tail of an object after
the opening brace. -/
inductive PMode where
  | value
  | arrTail (acc : List JsValue)
  | objTail (acc : List (String × JsValue))

/-- Fuel-indexed recursive descent over the `JSON.parse` grammar.  The fuel
only bounds the recursion depth; `jsonParse` supplies enough of it for any
input. -/
def parseF : Nat → PMode → List Char → Option (JsValue × List Char)
  | 0, _, _ => none
  | Nat.succ fuel, PMode.value, cs =>
    match skipWs cs with
    | [] => none
    | '"' :: rest => (parseStringBody [] rest).map fun p => (JsValue.jstr p.1, p.2)
    | 't' :: 'r' :: 'u' :: 'e' :: rest => some (JsValue.jbool true, rest)
    | 'f' :: 'a' :: 'l' :: 's' :: 'e' :: rest => some (JsValue.jbool false, rest)
    | 'n' :: 'u' :: 'l' :: 'l' :: rest => some (JsValue.jnull, rest)
    | '[' :: rest =>
      match skipWs rest with
      | ']' :: r2 => some (JsValue.jarr [], r2)
      | r2 => parseF fuel (PMode.arrTail []) r2
    | c :: rest =>
      if c == lbraceChar then
        match skipWs rest with
        | [] => none
        | d :: r3 =>
          if d == rbraceChar then some (JsValue.jobj [], r3)
          else parseF fuel (PMode.objTail []) (d :: r3)
      else parseNumber (c :: rest)
  | Nat.succ fuel, PMode.arrTail acc, cs =>
    match parseF fuel PMode.value cs with
    | none => none
    | some (v, r) =>
      match skipWs r with
      | ',' :: r2 => parseF fuel (PMode.arrTail (v :: acc)) r2
      | ']' :: r2 => some (JsValue.jarr (v :: acc).reverse, r2)
      | _ => none
  | Nat.succ fuel, PMode.objTail acc, cs =>
    match skipWs cs with
    | '"' :: r =>
      match parseStringBody [] r with
      | none => none
      | some (k, r1) =>
        match skipWs r1 with
        | ':' :: r2 =>
          match parseF fuel PMode.value r2 with
          | none => none
          | some (v, r3) =>
            match skipWs r3 with
            | ',' :: r4 => parseF fuel (PMode.objTail ((k, v) :: acc)) r4
            | d :: r4 =>
              if d == rbraceChar then some (JsValue.jobj ((k, v) :: acc).reverse, r4)
              else none
            | [] => none
        | _ => none
    | _ => none

/-- The JavaScript `JSON.parse`: parse one value and require only whitespace
after it.  `none` plays the role of the thrown `SyntaxError`. -/
def jsonParse (s : String) : Option JsValue :=
  match parseF (2 * s.length + 4) PMode.value s.data with
  | some (v, rest) => if (skipWs rest).isEmpty then some v else none
  | none => none

/-- Last binding of a key among an object's members: `JSON.parse` assigns
duplicate keys in order, so the later member wins. -/
def lookupLast (fields : List (String × JsValue)) (key : String) : Option JsValue :=
  match fields with
  | [] => none
  | (k, v) :: rest =>
    match lookupLast rest key with
    | some r => some r
    | none => if k == key then some v else none

/-- The `email` property of a decoded payload, as the handler's
`payload.email` reads it.  Property access on a non-object either yields
`undefined` (strings, numbers, booleans, arrays) or throws (`null`); the
handler treats both the same way as a falsy email, so both are `none`
here. -/
def jsGetEmail : JsValue → Option JsValue
  | JsValue.jobj fields => lookupLast fields ("email")
  | _ => none

/-- JavaScript truthiness of a JSON value: `null`, `false`, the empty string
and zero are falsy.  A number is zero exactly when all its significand
digits are zero (underflow of a tiny nonzero literal to the double 0.0 is
not modelled). -/
def jsTruthy : JsValue → Bool
  | JsValue.jnull => false
  | JsValue.jbool b => b
  | JsValue.jstr s => !(s == "")
  | JsValue.jnum _ ints fracs _ _ => ints.any (fun d => d != 0) || fracs.any (fun d => d != 0)
  | JsValue.jarr _ => true
  | JsValue.jobj _ => true

/-- ASCII whitespace removed by the forgiving-base64 decode behind `atob`. -/
def isB64Ws (c : Char) : Bool :=
  c == ' ' || c == Char.ofNat 9 || c == Char.ofNat 10 || c == Char.ofNat 12 ||
    c == Char.ofNat 13

/-- Value of a character in the standard base64 alphabet. -/
def b64Val (c : Char) : Option Nat :=
  if 65 ≤ c.toNat && c.toNat ≤ 90 then some (c.toNat - 65)
  else if 97 ≤ c.toNat && c.toNat ≤ 122 then some (c.toNat - 71)
  else if 48 ≤ c.toNat && c.toNat ≤ 57 then some (c.toNat + 4)
  else if c == '+' then some 62
  else if c == '/' then some 63
  else none

/-- Remove up to two trailing padding characters. -/
def stripB64Padding (cs : List Char) : List Char :=
  match cs.reverse with
  | '=' :: '=' :: rest => rest.reverse
  | '=' :: rest => rest.reverse
  | _ => cs

/-- Reassemble 6-bit groups into bytes: four groups give three bytes, a
trailing group of three gives two, of two gives one, the leftover low bits
being discarded. -/
def b64Bytes : List Nat → List Nat
  | a :: b :: c :: d :: rest =>
    (a * 4 + b / 16) :: ((b % 16) * 16 + c / 4) :: ((c % 4) * 64 + d) :: b64Bytes rest
  | [a, b] => [a * 4 + b / 16]
  | [a, b, c] => [a * 4 + b / 16, (b % 16) * 16 + c / 4]
  | _ => []

/-- The JavaScript `atob`: forgiving-base64 decode of the input to a string
of characters below 256.  `none` plays the role of the thrown
`InvalidCharacterError`: a length of one modulo four after whitespace and
padding removal, or any character outside the alphabet. -/
def atob (s : String) : Option String :=
  let cs := s.data.filter fun c => !(isB64Ws c)
  let cs := if cs.length % 4 == 0 then stripB64Padding cs else cs
  if cs.length % 4 == 1 then none
  else
    match cs.mapM b64Val with
    | none => none
    | some vals => some (String.mk ((b64Bytes vals).map Char.ofNat))

/-- Lowercase an ASCII letter, as header-name comparison does. -/
def asciiLower (c : Char) : Char :=
  if 65 ≤ c.toNat && c.toNat ≤ 90 then Char.ofNat (c.toNat + 32) else c

/-- Case-insensitive equality of header names. -/
def nameEq (a b : String) : Bool :=
  a.data.map asciiLower == b.data.map asciiLower

/-- Join several values of one header with a comma and a space, as
`Headers.get` does. -/
def joinComma : List String → String
  | [] => ""
  | [v] => v
  | v :: w :: rest => v ++ ", " ++ joinComma (w :: rest)

/-- `Headers.get`: the comma-joined values of every entry whose name matches
case-insensitively, or `none` when there is no such entry.  Hono's
`c.req.header` returns exactly this. -/
def headerGet (hs : List (String × String)) (name : String) : Option String :=
  match hs.filter fun p => nameEq p.1 name with
  | [] => none
  | v :: vs => some (joinComma ((v :: vs).map Prod.snd))

/-- `Headers.set`: replace the first case-insensitive match in place and drop
any further matches, or append when there is none. -/
def headersSet : List (String × String) → String → String → List (String × String)
  | [], name, val => [(name, val)]
  | (n, v) :: rest, name, val =>
    if nameEq n name then (n, val) :: rest.filter fun p => !(nameEq p.1 name)
    else (n, v) :: headersSet rest name val

/-- `JSON.stringify` escaping of one character inside a string. -/
def jsonQuoteChar (c : Char) : List Char :=
  if c == '"' then ['\\', '"']
  else if c == '\\' then ['\\', '\\']
  else if c == Char.ofNat 8 then ['\\', 'b']
  else if c == Char.ofNat 12 then ['\\', 'f']
  else if c == Char.ofNat 10 then ['\\', 'n']
  else if c == Char.ofNat 13 then ['\\', 'r']
  else if c == Char.ofNat 9 then ['\\', 't']
  else if c.toNat < 32 then
    ['\\', 'u', '0', '0',
     (if c.toNat / 16 < 10 then Char.ofNat (48 + c.toNat / 16) else Char.ofNat (87 + c.toNat / 16)),
     (if c.toNat % 16 < 10 then Char.ofNat (48 + c.toNat % 16) else Char.ofNat (87 + c.toNat % 16))]
  else [c]

/-- `JSON.stringify` serialization of a string. -/
def jsonQuote (s : String) : String :=
  String.mk ('"' :: s.data.flatMap jsonQuoteChar ++ ['"'])

mutual

/-- `JSON.stringify` serialization of a JSON value.  Numbers are printed from
their syntactic form; JavaScript would print the rounded double instead,
which differs only in normalisation and matters to no property here (the
handler only ever serializes the decoded email, a string in every
behaviour the specification describes). -/
def jsonStringify : JsValue → String
  | JsValue.jnull => "null"
  | JsValue.jbool true => "true"
  | JsValue.jbool false => "false"
  | JsValue.jnum neg ints fracs expNeg exps =>
    (if neg then "-" else "") ++ String.mk (ints.map fun d => Char.ofNat (48 + d)) ++
      (if fracs.isEmpty then "" else "." ++ String.mk (fracs.map fun d => Char.ofNat (48 + d))) ++
      (if exps.isEmpty then ""
       else (if expNeg then "e-" else "e+") ++ String.mk (exps.map fun d => Char.ofNat (48 + d)))
  | JsValue.jstr s => jsonQuote s
  | JsValue.jarr xs => "[" ++ stringifyElems xs ++ "]"
  | JsValue.jobj fs => String.mk [lbraceChar] ++ stringifyFields fs ++ String.mk [rbraceChar]

/-- Comma-separated serializations of array elements. -/
def stringifyElems : List JsValue → String
  | [] => ""
  | [x] => jsonStringify x
  | x :: y :: rest => jsonStringify x ++ "," ++ stringifyElems (y :: rest)

/-- Comma-separated serializations of object members. -/
def stringifyFields : List (String × JsValue) → String
  | [] => ""
  | [(k, v)] => jsonQuote k ++ ":" ++ jsonStringify v
  | (k, v) :: p :: rest => jsonQuote k ++ ":" ++ jsonStringify v ++ "," ++ stringifyFields (p :: rest)

end

/-- The JavaScript `String.prototype.split` with a one-character separator,
as in the handler's `token.split('.')`: always at least one (possibly
empty) group. -/
def splitOnChar (sep : Char) : List Char → List (List Char)
  | [] => [[]]
  | c :: rest =>
    let r := splitOnChar sep rest
    if c == sep then [] :: r
    else
      match r with
      | [] => [[c]]
      | g :: gs => (c :: g) :: gs

/-- The decoding step of the handler (`src/index.ts`, the `try` block):
split the token on dots, require a second segment (`jwtParts.length < 2`
throws), `atob` it, `JSON.parse` the result, read `payload.email` and
require it truthy (`if (!userEmail) throw`).  `some v` is the accepted
email value; `none` collects every thrown error, which the handler's
`catch` turns into the single 401 response. -/
def tokenEmail (token : String) : Option JsValue :=
  match (splitOnChar '.' token.data)[1]? with
  | none => none
  | some seg =>
    match atob (String.mk seg) with
    | none => none
    | some payloadStr =>
      match jsonParse payloadStr with
      | none => none
      | some payload =>
        match jsGetEmail payload with
        | none => none
        | some v => if jsTruthy v then some v else none

/-- The worker's environment bindings. -/
structure Env where
  CF_AI_GATEWAY_TOKEN : String
  CF_AI_GATEWAY_URL : String

/-- An inbound request: method, path and query (which the handler never
reads), headers, and the body as a byte stream. -/
structure Request where
  method : String
  path : String
  query : String
  headers : List (String × String)
  body : List Nat

/-- The upstream response: status, headers, and the body as a byte
stream. -/
structure UpstreamResponse where
  status : Nat
  headers : List (String × String)
  body : List Nat

/-- The outbound call the handler passes to `fetch`. -/
structure UpstreamCall where
  url : String
  method : String
  headers : List (String × String)
  body : List Nat

/-- A network call the worker can make.  The source contains a single
`fetch`, to the gateway; the `keySetFetch` constructor exists only as
vocabulary to state that no key-set endpoint is ever contacted. -/
inductive NetworkCall where
  | keySetFetch (url : String)
  | upstream (call : UpstreamCall)

/-- Whether a network call is a key-set fetch. -/
def isKeySetFetch : NetworkCall → Bool
  | NetworkCall.keySetFetch _ => true
  | NetworkCall.upstream _ => false

/-- Outcome of the upstream `fetch`: a response, or a rejection (the network
failure the handler's second `catch` turns into 502). -/
inductive FetchResult where
  | ok (resp : UpstreamResponse)
  | connectFailure

/-- A response the worker returns to its caller: either a JSON error body it
built itself, or the upstream response passed through. -/
inductive GateResponse where
  | json (status : Nat) (body : String)
  | passthrough (resp : UpstreamResponse)

/-- Body of the 401 for a missing token. -/
def missingTokenBody : String := "\x7b\"error\":\"Missing authentication token\"\x7d"

/-- Body of the 401 for a token whose decoding failed. -/
def invalidTokenBody : String := "\x7b\"error\":\"Invalid or malformed token\"\x7d"

/-- Body of the 502 for an upstream connection failure. -/
def upstreamFailBody : String := "\x7b\"error\":\"Failed to connect to the upstream service\"\x7d"

/-- The token-extraction step (`src/index.ts` lines 24-27): read the
`cf-access-token` header; `if (!token)` rejects both an absent header and a
present-but-empty one. -/
def getToken (req : Request) : Option String :=
  match headerGet req.headers ("cf-access-token") with
  | none => none
  | some t => if t == "" then none else some t

/-- The authentication decision of the handler. -/
inductive AuthResult where
  | missingToken
  | invalidToken
  | authorized (email : JsValue)

/-- How the handler decides authentication: a missing (or empty) header is
rejected first; otherwise the token is decoded by `tokenEmail`, whose
failure is the handler's catch-all 401.  No key set is fetched and no
signature is checked anywhere in this decision. -/
def decideAuth (req : Request) : AuthResult :=
  match getToken req with
  | none => AuthResult.missingToken
  | some token =>
    match tokenEmail token with
    | none => AuthResult.invalidToken
    | some v => AuthResult.authorized v

/-- The forwarding step (`src/index.ts` lines 50-66): clone the inbound
headers, overwrite `Authorization` with the gateway bearer secret, set
`cf-aig-metadata` to the serialized user metadata, and call the configured
gateway URL with the inbound method and body. -/
def buildCall (env : Env) (req : Request) (email : JsValue) : UpstreamCall :=
  { url := env.CF_AI_GATEWAY_URL
    method := req.method
    headers :=
      headersSet
        (headersSet req.headers ("Authorization") ("Bearer " ++ env.CF_AI_GATEWAY_TOKEN))
        ("cf-aig-metadata")
        (jsonStringify (JsValue.jobj [("user_id", email)]))
    body := req.body }

/-- The whole POST handler, with the upstream `fetch` outcome supplied as an
oracle: 401 on a missing or undecodable token, otherwise the upstream
response passed through unchanged, or 502 when `fetch` rejects. -/
def handle (_env : Env) (req : Request) (fr : FetchResult) : GateResponse :=
  match decideAuth req with
  | AuthResult.missingToken => GateResponse.json 401 missingTokenBody
  | AuthResult.invalidToken => GateResponse.json 401 invalidTokenBody
  | AuthResult.authorized _email =>
    match fr with
    | FetchResult.ok resp => GateResponse.passthrough resp
    | FetchResult.connectFailure => GateResponse.json 502 upstreamFailBody

/-- The outbound call the handler makes, if any: exactly one `fetch` to the
gateway on the authorized path, nothing on the rejecting paths. -/
def upstreamCall (env : Env) (req : Request) : Option UpstreamCall :=
  match decideAuth req with
  | AuthResult.authorized email => some (buildCall env req email)
  | _ => none

/-- Every network call the worker makes while serving one request.  The
source performs no call other than the single upstream `fetch`; in
particular it never contacts a key-set endpoint. -/
def networkCalls (env : Env) (req : Request) : List NetworkCall :=
  match upstreamCall env req with
  | some call => [NetworkCall.upstream call]
  | none => []

/-- The module-level mutable state of `src/index.ts`: the file declares no
module-level mutable binding (in particular no key-set cache), so the state
is the empty structure. -/
structure GateState where

/-- The handler together with the module state it reads and writes: since
there is none, the state transition is the identity on every path. -/
def handleSt (env : Env) (st : GateState) (req : Request) (fr : FetchResult) :
    GateResponse × GateState :=
  (handle env req fr, st)

/-! Concrete example data used by the witnesses and evaluations below. -/

/-- A concrete environment. -/
def envEx : Env :=
  { CF_AI_GATEWAY_TOKEN := "sekret", CF_AI_GATEWAY_URL := "https://gw.example/v1" }

/-- A concrete upstream response with an error status, to show statuses pass
through untranslated. -/
def respEx : UpstreamResponse :=
  { status := 500, headers := [("content-type", "application/json")], body := [101, 114, 114] }

/-- A structurally well-formed token whose payload segment is the base64 of
a JSON object carrying the email `a@b.c`, and whose signature segment is
the arbitrary string `AAAA` — not a valid signature under any key. -/
def badSigToken : String := "eyJhbGciOiJSUzI1NiJ9.eyJlbWFpbCI6ImFAYi5jIn0.AAAA"

/-- A request carrying `badSigToken`. -/
def reqBadSig : Request :=
  { method := "POST", path := "/v1/chat", query := "stream=true"
    headers := [("host", "w.example"), ("cf-access-token", badSigToken),
                ("content-type", "application/json")]
    body := [123, 125] }

/-- A request with no `cf-access-token` header. -/
def reqNoTok : Request :=
  { method := "POST", path := "/", query := ""
    headers := [("content-type", "application/json")]
    body := [123, 125] }

/-- A request whose token `x` has no dot and therefore fails decoding. -/
def reqMalformed : Request :=
  { method := "POST", path := "/", query := ""
    headers := [("cf-access-token", "x")]
    body := [] }

/-- A token whose payload carries an `exp` claim far in the past together
with the email `a@b.c`. -/
def expiredToken : String := "hdr.eyJleHAiOjEsImVtYWlsIjoiYUBiLmMifQ.sig"

/-- A request carrying `expiredToken`. -/
def reqExpired : Request :=
  { method := "POST", path := "/", query := ""
    headers := [("cf-access-token", expiredToken)]
    body := [] }

/-- A token whose payload carries the email `alice@example.com`. -/
def aliceToken : String := "eyJhbGciOiJSUzI1NiJ9.eyJlbWFpbCI6ImFsaWNlQGV4YW1wbGUuY29tIn0.c2ln"

/-- A request carrying `aliceToken`, with an inbound `authorization` header
that the forwarding step must overwrite. -/
def reqAlice : Request :=
  { method := "POST", path := "/v1/chat/completions", query := ""
    headers := [("host", "w.example"), ("cf-access-token", aliceToken),
                ("authorization", "Bearer old"), ("content-type", "application/json")]
    body := [123, 125] }

/-! The claims. -/

/-- Claim C1 (evaluation of the code at the failing input): a syntactically
well-formed token whose signature segment is the arbitrary string `AAAA` is
forwarded upstream — the handler checks no signature against any key and
fetches no key set — contradicting the claim that verification fails with
401 and no upstream call is made. -/
theorem c1_incorrectly_signed_token_forwarded :
    upstreamCall envEx reqBadSig =
        some (buildCall envEx reqBadSig (JsValue.jstr ("a@b.c"))) ∧
      handle envEx reqBadSig (FetchResult.ok respEx) = GateResponse.passthrough respEx ∧
      (networkCalls envEx reqBadSig).all (fun c => !(isKeySetFetch c)) = true :=
  ⟨rfl, rfl, rfl⟩

/-- Claim C2: a request without the `cf-access-token` header is answered 401
with the documented missing-token body, and no network call — neither a
key-set fetch nor an upstream call — is made. -/
theorem c2_missing_token_no_network (env : Env) (req : Request) (fr : FetchResult)
    (h : headerGet req.headers ("cf-access-token") = none) :
    handle env req fr = GateResponse.json 401 missingTokenBody ∧
      networkCalls env req = [] := by
  have hd : decideAuth req = AuthResult.missingToken := by
    simp [decideAuth, getToken, h]
  refine ⟨?_, ?_⟩
  · simp [handle, hd]
  · simp [networkCalls, upstreamCall, hd]

/-- Witness for C2 at a concrete headerless request. -/
theorem c2_missing_token_no_network_witness :
    handle envEx reqNoTok (FetchResult.ok respEx) = GateResponse.json 401 missingTokenBody ∧
      networkCalls envEx reqNoTok = [] :=
  c2_missing_token_no_network envEx reqNoTok (FetchResult.ok respEx) (by decide)

/-- Claim C3: for a token decoding to email `e`, the single outbound call
goes out with the inbound method and body unchanged, and with the inbound
headers, `Authorization` overwritten by the configured bearer secret and
`cf-aig-metadata` set to the JSON serialization of the user-id metadata
object. -/
theorem c3_forwarding_shape (env : Env) (req : Request) (t e : String)
    (ht : getToken req = some t) (he : tokenEmail t = some (JsValue.jstr e)) :
    networkCalls env req = [NetworkCall.upstream
      { url := env.CF_AI_GATEWAY_URL
        method := req.method
        headers :=
          headersSet
            (headersSet req.headers ("Authorization") ("Bearer " ++ env.CF_AI_GATEWAY_TOKEN))
            ("cf-aig-metadata")
            (jsonStringify (JsValue.jobj [("user_id", JsValue.jstr e)]))
        body := req.body }] := by
  have hd : decideAuth req = AuthResult.authorized (JsValue.jstr e) := by
    simp [decideAuth, ht, he]
  simp [networkCalls, upstreamCall, hd, buildCall]

/-- Witness for C3: the spec's own example — identity `alice@example.com` —
with the outbound headers fully evaluated, showing the overwritten
`authorization`, the literal metadata header, and the unchanged body. -/
theorem c3_forwarding_shape_witness :
    networkCalls envEx reqAlice = [NetworkCall.upstream
      { url := "https://gw.example/v1"
        method := "POST"
        headers := [("host", "w.example"), ("cf-access-token", aliceToken),
                    ("authorization", "Bearer sekret"), ("content-type", "application/json"),
                    ("cf-aig-metadata", "\x7b\"user_id\":\"alice@example.com\"\x7d")]
        body := [123, 125] }] :=
  Eq.trans (c3_forwarding_shape envEx reqAlice aliceToken ("alice@example.com") rfl rfl) (by rfl)

/-- Counterexample to claim C4 as stated: the missing-token and
malformed-token failure causes are answered with two different 401 bodies,
so the response does reveal which check failed — they are not grouped into
a single indistinguishable 401. -/
theorem c4_distinct_401_bodies_counterexample :
    handle envEx reqNoTok (FetchResult.ok respEx) = GateResponse.json 401 missingTokenBody ∧
      handle envEx reqMalformed (FetchResult.ok respEx) = GateResponse.json 401 invalidTokenBody ∧
      missingTokenBody ≠ invalidTokenBody :=
  ⟨rfl, rfl, by decide⟩

/-- Claim C4 as amended: every response the gate produces itself is one of
exactly the three documented ones — 401 missing-token, 401 invalid-token,
502 upstream-failure — everything else being the upstream response passed
through.  (Malformed tokens and missing identity claims share the single
invalid-token 401; a missing token gets its own distinct 401 body; signature
validity is never checked, so an invalid signature triggers no 401 by
itself.) -/
theorem c4_three_documented_responses (env : Env) (req : Request) (fr : FetchResult) :
    (∃ resp, handle env req fr = GateResponse.passthrough resp) ∨
      handle env req fr = GateResponse.json 401 missingTokenBody ∨
      handle env req fr = GateResponse.json 401 invalidTokenBody ∨
      handle env req fr = GateResponse.json 502 upstreamFailBody := by
  cases hd : decideAuth req with
  | missingToken => exact Or.inr (Or.inl (by unfold handle; rw [hd]))
  | invalidToken => exact Or.inr (Or.inr (Or.inl (by unfold handle; rw [hd])))
  | authorized e =>
    cases fr with
    | ok resp => exact Or.inl ⟨resp, by unfold handle; rw [hd]⟩
    | connectFailure => exact Or.inr (Or.inr (Or.inr (by unfold handle; rw [hd])))

/-- Claim C5: once the token is accepted and the upstream call succeeds, the
upstream response — status, headers and body, whatever they are, an error
status included — is returned to the caller as-is. -/
theorem c5_response_passthrough (env : Env) (req : Request) (t : String) (v : JsValue)
    (resp : UpstreamResponse) (ht : getToken req = some t) (hv : tokenEmail t = some v) :
    handle env req (FetchResult.ok resp) = GateResponse.passthrough resp := by
  have hd : decideAuth req = AuthResult.authorized v := by simp [decideAuth, ht, hv]
  simp [handle, hd]

/-- Witness for C5 at a concrete request, with an upstream 500 response
passed through untranslated. -/
theorem c5_response_passthrough_witness :
    handle envEx reqAlice (FetchResult.ok respEx) = GateResponse.passthrough respEx :=
  c5_response_passthrough envEx reqAlice aliceToken (JsValue.jstr ("alice@example.com"))
    respEx rfl rfl

/-- Claim C6: when the upstream `fetch` rejects, the gate answers 502 with
the documented body, and the module state — which holds no key-set cache,
since the source declares none — is unchanged. -/
theorem c6_connect_failure_502 (env : Env) (st : GateState) (req : Request) (t : String)
    (v : JsValue) (ht : getToken req = some t) (hv : tokenEmail t = some v) :
    handleSt env st req FetchResult.connectFailure =
      (GateResponse.json 502 upstreamFailBody, st) := by
  have hd : decideAuth req = AuthResult.authorized v := by simp [decideAuth, ht, hv]
  simp [handleSt, handle, hd]

/-- Witness for C6 at a concrete request. -/
theorem c6_connect_failure_502_witness :
    handleSt envEx GateState.mk reqAlice FetchResult.connectFailure =
      (GateResponse.json 502 upstreamFailBody, GateState.mk) :=
  c6_connect_failure_502 envEx GateState.mk reqAlice aliceToken
    (JsValue.jstr ("alice@example.com")) rfl rfl

/-- Claim C7 (evaluation of the code): the worker never contacts a key-set
endpoint on any request — there is no key-set fetch to wrap in a retry
schedule, no delays, and nothing whose third attempt could succeed. -/
theorem c7_no_keyset_fetch_ever (env : Env) (req : Request) :
    (networkCalls env req).all (fun c => !(isKeySetFetch c)) = true := by
  unfold networkCalls
  cases h : upstreamCall env req with
  | none => rfl
  | some call => rfl

/-- Claim C8 (evaluation of the code): across any sequence of requests the
worker performs zero key-set fetches — there is no cache entry, no TTL and
no external key-set call whose repetition a cache could avoid. -/
theorem c8_zero_keyset_fetches (env : Env) (reqs : List Request) :
    ((reqs.map (networkCalls env)).flatten.countP isKeySetFetch) = 0 := by
  induction reqs with
  | nil => rfl
  | cons r rs ih =>
    have h0 : (networkCalls env r).countP isKeySetFetch = 0 := by
      unfold networkCalls
      cases h : upstreamCall env r with
      | none => rfl
      | some call => rfl
    simp [List.countP_append, h0, ih]

/-- Claim C9: with a (nonempty) token present, acceptance is decided by the
decoding alone — when the second dot-separated segment base64-decodes to a
JSON value with a truthy `email`, the request is forwarded upstream with
exactly one outbound call and no key-set fetch, no signature check and no
expiry check being involved; when the decoding fails (an absent, falsy or
empty-string email included), the single invalid-token 401 is returned and
no network call is made. -/
theorem c9_decode_decides_acceptance (env : Env) (req : Request) (t : String)
    (ht : getToken req = some t) :
    (∀ seg p v e, (splitOnChar '.' t.data)[1]? = some seg →
        atob (String.mk seg) = some p → jsonParse p = some v → jsGetEmail v = some e →
        jsTruthy e = true →
        networkCalls env req = [NetworkCall.upstream (buildCall env req e)]) ∧
    (tokenEmail t = none →
      networkCalls env req = [] ∧
        ∀ fr, handle env req fr = GateResponse.json 401 invalidTokenBody) := by
  constructor
  · intro seg p v e hseg hatob hparse hget htr
    have hte : tokenEmail t = some e := by
      simp [tokenEmail, hseg, hatob, hparse, hget, htr]
    have hd : decideAuth req = AuthResult.authorized e := by
      simp [decideAuth, ht, hte]
    simp [networkCalls, upstreamCall, hd]
  · intro hte
    have hd : decideAuth req = AuthResult.invalidToken := by
      simp [decideAuth, ht, hte]
    refine ⟨?_, ?_⟩
    · simp [networkCalls, upstreamCall, hd]
    · intro fr; simp [handle, hd]

/-- Witness for C9: a token carrying a long-expired `exp` claim and an
arbitrary signature is forwarded all the same, the decoded email being the
only thing consulted. -/
theorem c9_decode_decides_acceptance_witness :
    networkCalls envEx reqExpired =
      [NetworkCall.upstream (buildCall envEx reqExpired (JsValue.jstr ("a@b.c")))] :=
  (c9_decode_decides_acceptance envEx reqExpired expiredToken rfl).1
    (("eyJleHAiOjEsImVtYWlsIjoiYUBiLmMifQ").data)
    ("\x7b\"exp\":1,\"email\":\"a@b.c\"\x7d")
    (JsValue.jobj [("exp", JsValue.jnum false [1] [] false []),
                   ("email", JsValue.jstr ("a@b.c"))])
    (JsValue.jstr ("a@b.c")) rfl rfl rfl rfl rfl

/-- Claim C10: the outbound call always goes to exactly the configured
gateway URL, and the inbound path and query have no effect on the outbound
call at all. -/
theorem c10_upstream_url_fixed (env : Env) (req : Request) (p q : String) :
    (∀ call, upstreamCall env req = some call → call.url = env.CF_AI_GATEWAY_URL) ∧
      upstreamCall env { req with path := p, query := q } = upstreamCall env req := by
  constructor
  · intro call h
    unfold upstreamCall at h
    cases hd : decideAuth req with
    | missingToken => rw [hd] at h; cases h
    | invalidToken => rw [hd] at h; cases h
    | authorized e =>
      rw [hd] at h
      injection h with h2
      rw [← h2]
      rfl
  · rfl

/-- Witness for C10 at a concrete request and a changed path and query. -/
theorem c10_upstream_url_fixed_witness :
    (buildCall envEx reqAlice (JsValue.jstr ("alice@example.com"))).url =
        envEx.CF_AI_GATEWAY_URL ∧
      upstreamCall envEx { reqAlice with path := "/other", query := "a=b" } =
        upstreamCall envEx reqAlice :=
  ⟨(c10_upstream_url_fixed envEx reqAlice ("/other") ("a=b")).1
      (buildCall envEx reqAlice (JsValue.jstr ("alice@example.com"))) rfl,
    (c10_upstream_url_fixed envEx reqAlice ("/other") ("a=b")).2⟩

end ProxyWorker
